import Mathlib

/-!
Verification of the cluster state accessor and mutation layer
(`k8s_client.py`, `monitoring.py`) against its specification.

The Python code is shallowly embedded: every Python function that a claim
touches becomes a Lean definition with the same name where possible.
Python exceptions are modelled by the `PyError` type together with
`Except PyError` results (an `Except.error` value means the Python call
raised and the exception propagated to the caller).  Remote cluster
endpoints are modelled as oracle records (`RemoteApi`, `ApplyBackend`,
`RestartApi`): each field gives the outcome the remote API would return
for that endpoint, and every embedded operation additionally reports how
many remote calls it attempted, so that "no remote call is attempted"
claims are statable.  String primitives (`endswith`, `strip`, `int`) are
modelled over the character sequence of the string so that every
definition evaluates on concrete inputs.
-/

/-- Python exception classes relevant to the embedded code.
`apiException` is `kubernetes.client.ApiException` (carrying `str(exc)`),
`valueError` carries the message of a `ValueError`, `attributeError`
models attribute access on `None`, `keyError` models a failed dict
lookup, `otherError` covers any other exception. -/
inductive PyError where
  | apiException (msg : String)
  | valueError (msg : String)
  | attributeError
  | keyError
  | otherError (msg : String)
  deriving DecidableEq, Repr

deriving instance DecidableEq for Except

/-- `str(exc)` for a modelled exception. -/
def PyError.str : PyError → String
  | .apiException msg => msg
  | .valueError msg => msg
  | .attributeError => "AttributeError"
  | .keyError => "KeyError"
  | .otherError msg => msg

/-- Python `s.endswith(suffix)` over the character sequence. -/
def pyEndsWith (s suffix : String) : Bool :=
  decide (s.data.drop (s.data.length - suffix.data.length) = suffix.data)

/-- Python slice `s[:-n]` (drop the last `n` characters). -/
def pyDropRight (s : String) (n : Nat) : String :=
  ⟨s.data.take (s.data.length - n)⟩

/-- The code points CPython's `int()` strips as surrounding whitespace
(checked exhaustively against CPython: the `str.isspace` set minus the
file/group/record/unit separators U+001C..U+001F, which `int()`
rejects). -/
def pyWhitespaceCps : List Nat :=
  [0x09, 0x0A, 0x0B, 0x0C, 0x0D, 0x20, 0x85, 0xA0, 0x1680,
   0x2000, 0x2001, 0x2002, 0x2003, 0x2004, 0x2005, 0x2006, 0x2007,
   0x2008, 0x2009, 0x200A, 0x2028, 0x2029, 0x202F, 0x205F, 0x3000]

/-- Whether `int()` strips this character as whitespace. -/
def pyIsSpace (c : Char) : Bool := pyWhitespaceCps.contains c.toNat

/-- Start code points of the 66 contiguous runs of ten Unicode decimal
digits (characters with a decimal value, category Nd) that CPython's
`int()` accepts, in order; within each run the digit values are 0..9.
Enumerated exhaustively from CPython's Unicode data (every accepted
digit lies in exactly one run and `int(ch) = ch - start` was checked for
all of them). -/
def pyDigitRunStarts : List Nat :=
  [0x30, 0x660, 0x6F0, 0x7C0, 0x966, 0x9E6, 0xA66, 0xAE6, 0xB66, 0xBE6,
   0xC66, 0xCE6, 0xD66, 0xDE6, 0xE50, 0xED0, 0xF20, 0x1040, 0x1090,
   0x17E0, 0x1810, 0x1946, 0x19D0, 0x1A80, 0x1A90, 0x1B50, 0x1BB0,
   0x1C40, 0x1C50, 0xA620, 0xA8D0, 0xA900, 0xA9D0, 0xA9F0, 0xAA50,
   0xABF0, 0xFF10, 0x104A0, 0x10D30, 0x11066, 0x110F0, 0x11136,
   0x111D0, 0x112F0, 0x11450, 0x114D0, 0x11650, 0x116C0, 0x11730,
   0x118E0, 0x11950, 0x11C50, 0x11D50, 0x11DA0, 0x16A60, 0x16AC0,
   0x16B50, 0x1D7CE, 0x1D7D8, 0x1D7E2, 0x1D7EC, 0x1D7F6, 0x1E140,
   0x1E2F0, 0x1E950, 0x1FBF0]

/-- Decimal value of a character under `int()` (Unicode decimal digits,
not just ASCII); `none` for a non-digit. -/
def pyDigitVal (c : Char) : Option Nat :=
  (pyDigitRunStarts.find? fun st => st ≤ c.toNat && c.toNat ≤ st + 9).map
    fun st => c.toNat - st

/-- Continuation of a digit run after its first digit, with CPython's
underscore grouping rule: a `_` must be followed directly by a digit
(so no trailing, leading-after-sign or doubled underscores). -/
def pyDigitsTail : List Char → Nat → Option Nat
  | [], acc => some acc
  | c :: cs, acc =>
    if c = '_' then
      match cs with
      | [] => none
      | c' :: cs' =>
        match pyDigitVal c' with
        | some d => pyDigitsTail cs' (acc * 10 + d)
        | none => none
    else
      match pyDigitVal c with
      | some d => pyDigitsTail cs (acc * 10 + d)
      | none => none

/-- Value of the digit body accepted by `int()` after sign stripping:
at least one decimal digit, with underscores allowed only between
digits. -/
def pyNatOfDigits (cs : List Char) : Option Nat :=
  match cs with
  | [] => none
  | c :: cs' =>
    match pyDigitVal c with
    | some d => pyDigitsTail cs' d
    | none => none

/-- Python `int(s)` on a string: the argument is stripped of the
surrounding whitespace `int()` accepts, an optional single `+`/`-` sign
is accepted, and the remainder must be a non-empty run of Unicode
decimal digits with optional underscore grouping; anything else raises
`ValueError`.  Checked against CPython on underscore-grouped,
non-ASCII-digit and whitespace-wrapped inputs. -/
def pyIntCore (s : String) : List Char → Except PyError Int
  | [] => .error (.valueError s)
  | c :: rest =>
    if c = '-' then
      match pyNatOfDigits rest with
      | some n => .ok (-(n : Int))
      | none => .error (.valueError s)
    else if c = '+' then
      match pyNatOfDigits rest with
      | some n => .ok ((n : Int))
      | none => .error (.valueError s)
    else
      match pyNatOfDigits (c :: rest) with
      | some n => .ok ((n : Int))
      | none => .error (.valueError s)

def pyIntOfString (s : String) : Except PyError Int :=
  pyIntCore s (((s.data.dropWhile pyIsSpace).reverse.dropWhile
      pyIsSpace).reverse)

/-- Python `int(x / d)` for integer `x` and positive integer `d`:
true division followed by truncation toward zero, which (for magnitudes
where the float division is exact enough, as here) is `Int.tdiv`. -/
def pyTruncDiv (x : Int) (d : Int) : Int := Int.tdiv x d

/-- `monitoring._parse_quantity`: suffix-dispatched quantity parsing.
`.error` means the Python function raised (always a `ValueError` from
`int()`). -/
def _parse_quantity (value : String) : Except PyError Int :=
  if pyEndsWith value "n" then
    match pyIntOfString (pyDropRight value 1) with
    | .ok v => .ok (pyTruncDiv v 1000000)
    | .error e => .error e
  else if pyEndsWith value "m" then
    pyIntOfString (pyDropRight value 1)
  else if pyEndsWith value "Ki" then
    match pyIntOfString (pyDropRight value 2) with
    | .ok v => .ok (pyTruncDiv v 1024)
    | .error e => .error e
  else if pyEndsWith value "Mi" then
    pyIntOfString (pyDropRight value 2)
  else
    pyIntOfString value

example : _parse_quantity "500m" = .ok 500 := by decide
example : _parse_quantity "2000n" = .ok 0 := by decide
example : _parse_quantity "1024Ki" = .ok 1 := by decide
example : _parse_quantity "256Mi" = .ok 256 := by decide
example : _parse_quantity "3" = .ok 3 := by decide
example : _parse_quantity "1Gi" = .error (.valueError "1Gi") := by decide
example : _parse_quantity "2000000n" = .ok 2 := by decide

/-! Agreement of the `int()` model with CPython on the inputs `int()`
accepts beyond sign-and-ASCII-digit literals (underscore grouping,
non-ASCII decimal digits, extended whitespace), and on the
underscore-placement and non-decimal-digit rejections. -/

example : _parse_quantity "1_5" = .ok 15 := by decide
example : pyIntOfString "1_5" = .ok 15 := by decide
example : pyIntOfString "+1_2" = .ok 12 := by decide
example : pyIntOfString "_5" = .error (.valueError "_5") := by decide
example : pyIntOfString "5_" = .error (.valueError "5_") := by decide
example : pyIntOfString "5__5" = .error (.valueError "5__5") := by decide
example : pyIntOfString "-_5" = .error (.valueError "-_5") := by decide
example : pyIntOfString " 42 " = .ok 42 := by decide
example : pyIntOfString "\x0C42" = .ok 42 := by decide
example :
    pyIntOfString ⟨[Char.ofNat 0x664, Char.ofNat 0x662]⟩ = .ok 42 := by decide
example :
    pyIntOfString ⟨[Char.ofNat 0xFF11, Char.ofNat 0xFF12]⟩ = .ok 12 := by decide
example :
    pyIntOfString ⟨['1', '_', Char.ofNat 0x662]⟩ = .ok 12 := by decide
example : pyIntOfString ⟨[Char.ofNat 0xB2]⟩ =
    .error (.valueError ⟨[Char.ofNat 0xB2]⟩) := by decide
example : pyIntOfString ⟨[Char.ofNat 0x1C, '5']⟩ =
    .error (.valueError ⟨[Char.ofNat 0x1C, '5']⟩) := by decide

/-! ## Cluster Session and Resource Catalog (`k8s_client.KubernetesManager`) -/

/-- A kubeconfig context entry: `{"name": ..., "context": {"user": ...,
"config_source": ...}}`, flattened (`user`/`config_source` are `none`
when the inner dict or key is absent). -/
structure KubeCtx where
  name : String
  user : Option String
  config_source : Option String
  deriving DecidableEq, Repr

/-- An opaque listed resource object (an element of a `.items` list),
identified by a label. -/
abbrev KObj := String

/-- `node.status.conditions` entry; `ctype` is the Python attribute
`condition.type`. -/
structure NodeCondition where
  ctype : String
  status : String
  deriving DecidableEq, Repr

/-- A node as read by `read_node`: only `status.conditions` matters to the
embedded code (`none` models a `None` conditions attribute). -/
structure Node where
  conditions : Option (List NodeCondition)
  deriving DecidableEq, Repr

/-- `KubernetesManager`'s mutable state.  Each API handle
(`api_client`, `core`, `apps`, `batch`, `events`) is `none` when the
Python attribute is `None`, and otherwise records the context name the
client was built from (the value `new_client_from_config` returned). -/
structure Manager where
  api_client : Option String
  core : Option String
  apps : Option String
  batch : Option String
  events : Option String
  connection_warning : Option String
  kubeconfig_path : Option String
  available_contexts : List KubeCtx
  active_context : KubeCtx
  dummy_mode : Bool
  deriving DecidableEq, Repr

/-- The local credential store (the `kubernetes.config` module):
`list_kube_config_contexts` is the outcome of probing the kubeconfig,
`new_client_from_config ctx` the outcome of building a client for a
named context (an `.ok` value is the handle, modelled by the context
name it is scoped to). -/
structure ConfigStore where
  list_kube_config_contexts : Except PyError (List KubeCtx × Option KubeCtx)
  new_client_from_config : String → Except PyError String

/-- `KubernetesManager.set_context`.  In dummy mode only the recorded
active context is replaced; otherwise all five API handles are rebuilt
from the named context (and, faithfully to the source, `active_context`
is NOT reassigned).  An `.error` result is the exception from
`new_client_from_config` propagating to the caller, with the manager
unchanged (the throw happens before any field assignment). -/
def set_context (store : ConfigStore) (m : Manager) (context_name : String) :
    Except PyError Manager :=
  if m.dummy_mode then
    .ok { m with active_context := ⟨context_name, some "disconnected", none⟩ }
  else
    match store.new_client_from_config context_name with
    | .error e => .error e
    | .ok api =>
      .ok { m with api_client := some api, core := some api, apps := some api,
                   batch := some api, events := some api,
                   connection_warning := none }

/-- `KubernetesManager.__init__` given the credential store and the
`KUBECONFIG` environment variable. -/
def initManager (store : ConfigStore) (kubeconfig_env : Option String) :
    Except PyError Manager :=
  let probe :=
    match store.list_kube_config_contexts with
    | .ok (cs, a) => (cs, a, (none : Option String))
    | .error e => ([], none, some e.str)
  match probe with
  | (contexts, active, warning) =>
    match contexts with
    | [] =>
      .ok { api_client := none, core := none, apps := none, batch := none,
            events := none, connection_warning := warning,
            kubeconfig_path := kubeconfig_env,
            available_contexts := [⟨"No kubeconfig found", none, none⟩],
            active_context := ⟨"disconnected", some "n/a", none⟩,
            dummy_mode := true }
    | c :: _ =>
      let active_context := active.getD c
      let kubeconfig_path :=
        (kubeconfig_env.orElse fun _ => active_context.config_source).orElse
          fun _ => some "~/.kube/config"
      let m : Manager :=
        { api_client := none, core := none, apps := none, batch := none,
          events := none, connection_warning := warning,
          kubeconfig_path := kubeconfig_path,
          available_contexts := contexts,
          active_context := active_context,
          dummy_mode := false }
      set_context store m active_context.name

/-- `usage` entry of a node metrics item:
`item["metadata"]["name"]` and `item["usage"].get("cpu"/"memory")`. -/
structure NodeMetricsItem where
  name : String
  usage_cpu : Option String
  usage_memory : Option String
  deriving DecidableEq, Repr

/-- One container's `{"usage": {...}}` entry of a pod metrics item. -/
structure ContainerUsage where
  usage_cpu : Option String
  usage_memory : Option String
  deriving DecidableEq, Repr

/-- A pod metrics item: `metadata.name`, `metadata.namespace`
(`nspace`), and the per-container usage list. -/
structure PodMetricsItem where
  name : String
  nspace : String
  containers : List ContainerUsage
  deriving DecidableEq, Repr

/-- The remote cluster, one field per endpoint the embedded code calls:
each field is the outcome (items already projected, or exception) that
the remote API yields when that endpoint is actually reached. -/
structure RemoteApi where
  list_namespace : Except PyError (List KObj)
  list_namespaced_pod : String → Option String → Except PyError (List KObj)
  list_pod_for_all_namespaces : Option String → Except PyError (List KObj)
  list_namespaced_deployment : String → Except PyError (List KObj)
  list_deployment_for_all_namespaces : Except PyError (List KObj)
  list_namespaced_stateful_set : String → Except PyError (List KObj)
  list_stateful_set_for_all_namespaces : Except PyError (List KObj)
  list_namespaced_service : String → Except PyError (List KObj)
  list_service_for_all_namespaces : Except PyError (List KObj)
  list_namespaced_job : String → Except PyError (List KObj)
  list_job_for_all_namespaces : Except PyError (List KObj)
  list_namespaced_config_map : String → Except PyError (List KObj)
  list_config_map_for_all_namespaces : Except PyError (List KObj)
  list_namespaced_secret : String → Except PyError (List KObj)
  list_secret_for_all_namespaces : Except PyError (List KObj)
  list_namespaced_event : String → Except PyError (List KObj)
  list_event_for_all_namespaces : Except PyError (List KObj)
  read_namespaced_pod_log :
    String → String → Option String → Nat → Except PyError String
  read_node : String → Except PyError Node
  read_resource : String → String → String → Except PyError (List (String × String))
  list_cluster_node_metrics : Except PyError (List NodeMetricsItem)
  list_cluster_pod_metrics : Except PyError (List PodMetricsItem)
  list_namespaced_pod_metrics : String → Except PyError (List PodMetricsItem)

/-- Outcome of one attempted call through an API handle: the result and
the number of remote calls actually attempted (0 or 1). -/
structure CallRes (α : Type) where
  result : Except PyError α
  calls : Nat
  deriving Repr

/-- Calling a method on a handle: if the handle attribute is `None`,
attribute access raises before any remote traffic (`AttributeError`,
0 remote calls); otherwise the remote endpoint is reached once and its
outcome returned. -/
def handleCall {α : Type} (handle : Option String) (remote : Except PyError α) :
    CallRes α :=
  match handle with
  | none => ⟨.error .attributeError, 0⟩
  | some _ => ⟨remote, 1⟩

/-- Map the result of a call. -/
def CallRes.mapRes {α β : Type} (f : α → β) (c : CallRes α) : CallRes β :=
  ⟨c.result.map f, c.calls⟩

/-- `KubernetesManager._safe_call`: run the wrapped call; on
`ApiException` record the warning and return the default; on any other
exception return the default without recording; otherwise the value.
Returns (value, updated manager, remote calls attempted). -/
def _safe_call {α : Type} (m : Manager) (c : CallRes α) (default : α) :
    α × Manager × Nat :=
  match c.result with
  | .ok v => (v, m, c.calls)
  | .error (.apiException msg) =>
    (default, { m with connection_warning := some msg }, c.calls)
  | .error _ => (default, m, c.calls)

/-- `KubernetesManager.list_namespaces` (note: no dummy-mode guard in the
source; in dummy mode the `None` core handle raises `AttributeError`
inside `_safe_call`, which swallows it). -/
def list_namespaces (api : RemoteApi) (m : Manager) :
    List KObj × Manager × Nat :=
  _safe_call m (handleCall m.core api.list_namespace) []

/-- `KubernetesManager.list_pods`. -/
def list_pods (api : RemoteApi) (m : Manager) (ns : Option String)
    (field_selector : Option String) : List KObj × Manager × Nat :=
  if m.dummy_mode then ([], m, 0)
  else
    match ns with
    | some n =>
      _safe_call m (handleCall m.core (api.list_namespaced_pod n field_selector)) []
    | none =>
      _safe_call m (handleCall m.core (api.list_pod_for_all_namespaces field_selector)) []

/-- `KubernetesManager.list_deployments`. -/
def list_deployments (api : RemoteApi) (m : Manager) (ns : Option String) :
    List KObj × Manager × Nat :=
  if m.dummy_mode then ([], m, 0)
  else
    match ns with
    | some n => _safe_call m (handleCall m.apps (api.list_namespaced_deployment n)) []
    | none => _safe_call m (handleCall m.apps api.list_deployment_for_all_namespaces) []

/-- `KubernetesManager.list_statefulsets`. -/
def list_statefulsets (api : RemoteApi) (m : Manager) (ns : Option String) :
    List KObj × Manager × Nat :=
  if m.dummy_mode then ([], m, 0)
  else
    match ns with
    | some n => _safe_call m (handleCall m.apps (api.list_namespaced_stateful_set n)) []
    | none => _safe_call m (handleCall m.apps api.list_stateful_set_for_all_namespaces) []

/-- `KubernetesManager.list_services`. -/
def list_services (api : RemoteApi) (m : Manager) (ns : Option String) :
    List KObj × Manager × Nat :=
  if m.dummy_mode then ([], m, 0)
  else
    match ns with
    | some n => _safe_call m (handleCall m.core (api.list_namespaced_service n)) []
    | none => _safe_call m (handleCall m.core api.list_service_for_all_namespaces) []

/-- `KubernetesManager.list_jobs`. -/
def list_jobs (api : RemoteApi) (m : Manager) (ns : Option String) :
    List KObj × Manager × Nat :=
  if m.dummy_mode then ([], m, 0)
  else
    match ns with
    | some n => _safe_call m (handleCall m.batch (api.list_namespaced_job n)) []
    | none => _safe_call m (handleCall m.batch api.list_job_for_all_namespaces) []

/-- `KubernetesManager.list_configmaps`. -/
def list_configmaps (api : RemoteApi) (m : Manager) (ns : Option String) :
    List KObj × Manager × Nat :=
  if m.dummy_mode then ([], m, 0)
  else
    match ns with
    | some n => _safe_call m (handleCall m.core (api.list_namespaced_config_map n)) []
    | none => _safe_call m (handleCall m.core api.list_config_map_for_all_namespaces) []

/-- `KubernetesManager.list_secrets`. -/
def list_secrets (api : RemoteApi) (m : Manager) (ns : Option String) :
    List KObj × Manager × Nat :=
  if m.dummy_mode then ([], m, 0)
  else
    match ns with
    | some n => _safe_call m (handleCall m.core (api.list_namespaced_secret n)) []
    | none => _safe_call m (handleCall m.core api.list_secret_for_all_namespaces) []

/-- `KubernetesManager.list_events`. -/
def list_events (api : RemoteApi) (m : Manager) (ns : Option String) :
    List KObj × Manager × Nat :=
  if m.dummy_mode then ([], m, 0)
  else
    match ns with
    | some n => _safe_call m (handleCall m.events (api.list_namespaced_event n)) []
    | none => _safe_call m (handleCall m.events api.list_event_for_all_namespaces) []

/-- `KubernetesManager.get_logs`: dummy mode returns the fixed sentinel;
`ApiException` is converted to an "Unable to fetch logs" message
(without touching `connection_warning`); any other exception
propagates. -/
def get_logs (api : RemoteApi) (m : Manager) (pod_name ns : String)
    (container : Option String) (tail_lines : Nat) :
    Except PyError String × Manager × Nat :=
  if m.dummy_mode then (.ok "No kubeconfig loaded; cannot fetch logs.", m, 0)
  else
    match handleCall m.core (api.read_namespaced_pod_log pod_name ns container tail_lines) with
    | ⟨.ok s, n⟩ => (.ok s, m, n)
    | ⟨.error (.apiException e), n⟩ => (.ok ("Unable to fetch logs: " ++ e), m, n)
    | ⟨.error e, n⟩ => (.error e, m, n)

/-- `KubernetesManager.get_node`: `None` in dummy mode, otherwise a
`_safe_call`-guarded read with default `None`. -/
def get_node (api : RemoteApi) (m : Manager) (node_name : String) :
    Option Node × Manager × Nat :=
  if m.dummy_mode then (none, m, 0)
  else _safe_call m ((handleCall m.core (api.read_node node_name)).mapRes some) none

/-- `yaml.safe_dump` of a flat manifest dict (serialization details are
abstracted to one line per key). -/
def yaml_safe_dump (d : List (String × String)) : String :=
  String.intercalate "\n" (d.map fun kv => kv.1 ++ ": " ++ kv.2)

/-- `KubernetesManager._strip_status`: `manifest.pop("status", None)`. -/
def _strip_status (manifest : List (String × String)) : List (String × String) :=
  manifest.filter fun kv => kv.1 != "status"

/-- `KubernetesManager.get_resource_yaml`: sentinel in dummy mode; the
`loader = {...}[kind]` dict lookup raises `KeyError` for an unsupported
kind before any call; otherwise the per-kind read (apps handle for
Deployment/StatefulSet, core handle otherwise), status stripped, dumped.
Read errors are not caught and propagate. -/
def get_resource_yaml (api : RemoteApi) (m : Manager) (kind name ns : String) :
    Except PyError String × Manager × Nat :=
  if m.dummy_mode then (.ok "No kubeconfig loaded; unable to load manifest.", m, 0)
  else if kind = "Deployment" ∨ kind = "StatefulSet" then
    match handleCall m.apps (api.read_resource kind name ns) with
    | ⟨.ok d, n⟩ => (.ok (yaml_safe_dump (_strip_status d)), m, n)
    | ⟨.error e, n⟩ => (.error e, m, n)
  else if kind = "Service" ∨ kind = "ConfigMap" ∨ kind = "Secret" then
    match handleCall m.core (api.read_resource kind name ns) with
    | ⟨.ok d, n⟩ => (.ok (yaml_safe_dump (_strip_status d)), m, n)
    | ⟨.error e, n⟩ => (.error e, m, n)
  else (.error .keyError, m, 0)

/-! ## Metrics Aggregator (`monitoring.py`) -/

/-- `monitoring.NodeMetrics` dataclass. -/
structure NodeMetrics where
  name : String
  cpu_millicores : Int
  memory_mebibytes : Int
  pod_count : Nat
  kubelet_health : String
  karpenter_health : String
  deriving DecidableEq, Repr

/-- `monitoring.PodMetrics` dataclass (`nspace` is the `namespace`
field). -/
structure PodMetrics where
  name : String
  nspace : String
  cpu_millicores : Int
  memory_mebibytes : Int
  deriving DecidableEq, Repr

/-- The scan inside `monitoring._get_condition`: first condition whose
`type` matches yields its status, else "Unknown" after the loop. -/
def scanConditions (conds : List NodeCondition) (condition_type : String) :
    String :=
  match conds with
  | [] => "Unknown"
  | c :: rest =>
    if c.ctype = condition_type then c.status
    else scanConditions rest condition_type

/-- `monitoring._get_condition`: `get_node` (itself `_safe_call`-guarded,
returning `None` on a swallowed error), then a scan of
`node.status.conditions or []`; the surrounding `try` catches only
`ApiException` (yielding "Unknown"), so the `AttributeError` from
`node.status` when `node` is `None` propagates. -/
def _get_condition (api : RemoteApi) (m : Manager)
    (node_name condition_type : String) :
    Except PyError String × Manager × Nat :=
  let r := get_node api m node_name
  let body : Except PyError String :=
    match r.1 with
    | none => .error .attributeError
    | some node => .ok (scanConditions (node.conditions.getD []) condition_type)
  match body with
  | .error (.apiException _) => (.ok "Unknown", r.2.1, r.2.2)
  | other => (other, r.2.1, r.2.2)

/-- The per-item loop body of `fetch_node_metrics`: constructor arguments
are evaluated in source order (cpu, memory, pod count, the two health
conditions); the first exception aborts the loop, carrying the metrics
accumulated so far.  Returns (exception if any, accumulated metrics,
manager, remote calls attempted). -/
def nodeMetricsLoop (api : RemoteApi) :
    List NodeMetricsItem → Manager → List NodeMetrics →
    Option PyError × List NodeMetrics × Manager × Nat
  | [], m, acc => (none, acc, m, 0)
  | item :: rest, m, acc =>
    match _parse_quantity (item.usage_cpu.getD "0") with
    | .error e => (some e, acc, m, 0)
    | .ok cpu =>
      match _parse_quantity (item.usage_memory.getD "0") with
      | .error e => (some e, acc, m, 0)
      | .ok mem =>
        let p := list_pods api m none (some ("spec.nodeName=" ++ item.name))
        let kh := _get_condition api p.2.1 item.name "Ready"
        match kh.1 with
        | .error e => (some e, acc, kh.2.1, p.2.2 + kh.2.2)
        | .ok kubelet =>
          let kab := _get_condition api kh.2.1 item.name "KarpenterInitialized"
          match kab.1 with
          | .error e => (some e, acc, kab.2.1, p.2.2 + kh.2.2 + kab.2.2)
          | .ok karpenter =>
            let nm : NodeMetrics :=
              ⟨item.name, cpu, mem, p.1.length, kubelet, karpenter⟩
            let r := nodeMetricsLoop api rest kab.2.1 (acc ++ [nm])
            (r.1, r.2.1, r.2.2.1, p.2.2 + kh.2.2 + kab.2.2 + r.2.2.2)

/-- `monitoring.fetch_node_metrics`: empty list when the session is in
dummy mode or has no `api_client`; the whole body is wrapped in
`try ... except ApiException: pass`, so an `ApiException` (from the
metrics extension call, the only unguarded one) yields the metrics
accumulated so far; any other exception propagates. -/
def fetch_node_metrics (api : RemoteApi) (m : Manager) :
    Except PyError (List NodeMetrics) × Manager × Nat :=
  if m.dummy_mode || m.api_client.isNone then (.ok [], m, 0)
  else
    match handleCall m.api_client api.list_cluster_node_metrics with
    | ⟨.error (.apiException _), n⟩ => (.ok [], m, n)
    | ⟨.error e, n⟩ => (.error e, m, n)
    | ⟨.ok items, n⟩ =>
      let r := nodeMetricsLoop api items m []
      match r.1 with
      | some (.apiException _) => (.ok r.2.1, r.2.2.1, n + r.2.2.2)
      | some e => (.error e, r.2.2.1, n + r.2.2.2)
      | none => (.ok r.2.1, r.2.2.1, n + r.2.2.2)

/-- `sum(_parse_quantity(c["usage"].get(key, "0")) for c in containers)`:
the first parse exception propagates. -/
def sumContainers (cs : List ContainerUsage)
    (f : ContainerUsage → Option String) : Except PyError Int :=
  match cs with
  | [] => .ok 0
  | c :: rest =>
    match _parse_quantity ((f c).getD "0") with
    | .error e => .error e
    | .ok v =>
      match sumContainers rest f with
      | .error e => .error e
      | .ok s => .ok (v + s)

/-- The per-item loop of `fetch_pod_metrics` (cpu summed first, then
memory, matching source order). -/
def podMetricsLoop :
    List PodMetricsItem → List PodMetrics → Option PyError × List PodMetrics
  | [], acc => (none, acc)
  | item :: rest, acc =>
    match sumContainers item.containers (fun c => c.usage_cpu) with
    | .error e => (some e, acc)
    | .ok cpu =>
      match sumContainers item.containers (fun c => c.usage_memory) with
      | .error e => (some e, acc)
      | .ok mem => podMetricsLoop rest (acc ++ [⟨item.name, item.nspace, cpu, mem⟩])

/-- `monitoring.fetch_pod_metrics`: empty list when the session is in
dummy mode or has no `api_client`; namespace-scoped or cluster-scoped
metrics call; `ApiException` anywhere in the `try` yields the results
accumulated so far; other exceptions propagate. -/
def fetch_pod_metrics (api : RemoteApi) (m : Manager) (ns : Option String) :
    Except PyError (List PodMetrics) × Manager × Nat :=
  if m.dummy_mode || m.api_client.isNone then (.ok [], m, 0)
  else
    let call :=
      match ns with
      | some n => api.list_namespaced_pod_metrics n
      | none => api.list_cluster_pod_metrics
    match handleCall m.api_client call with
    | ⟨.error (.apiException _), n⟩ => (.ok [], m, n)
    | ⟨.error e, n⟩ => (.error e, m, n)
    | ⟨.ok items, n⟩ =>
      match podMetricsLoop items [] with
      | (some (.apiException _), acc) => (.ok acc, m, n)
      | (some e, _) => (.error e, m, n)
      | (none, acc) => (.ok acc, m, n)

/-! ## Manifest Mutator (`k8s_client.apply_yaml_manifest`,
`_apply_single`, `restart_deployment`) -/

/-- Python f-string rendering of a value that may be `None`. -/
def pyShowOptStr : Option String → String
  | none => "None"
  | some s => s

/-- A parsed manifest document, flattened to the fields `_apply_single`
reads: `doc.get("kind")`, `metadata.get("name")`,
`metadata.get("namespace")`; `body` stands for the rest of the document
tree (passed through opaquely to patch/create). -/
structure Doc where
  kind : Option String
  name : Option String
  nspace : Option String
  body : String
  deriving DecidableEq, Repr

/-- Identity of one cluster object as addressed by the per-kind
read/patch/create calls. -/
structure ObjKey where
  kind : String
  name : Option String
  nspace : Option String
  deriving DecidableEq, Repr

/-- One remote API verb issued by the mutator, in issue order. -/
inductive ApiVerb where
  | readObj (k : ObjKey)
  | patchObj (k : ObjKey)
  | createObj (k : ObjKey)
  deriving DecidableEq, Repr

/-- The remote cluster as seen by the mutator, parameterized by its
state type: outcome of each verb on a given state (the handle from
`new_client_from_config(config_file=kubeconfig, context=context_name)`
is taken as already constructed).  `read` returns existence information
only (its value is discarded by the source). -/
structure ApplyBackend (σ : Type) where
  read : σ → ObjKey → Except PyError Unit
  patch : σ → ObjKey → Doc → Except PyError σ
  create : σ → ObjKey → Doc → Except PyError σ

/-- The `try: read; patch; except ApiException: create` shape shared by
all five kind branches of `_apply_single`.  Returns the new state, the
verbs issued in order, and the exception propagating to the caller, if
any.  A failed call leaves the state unchanged. -/
def tryReadPatchCreate {σ : Type} (b : ApplyBackend σ) (s : σ) (k : ObjKey)
    (doc : Doc) : σ × List ApiVerb × Option PyError :=
  match b.read s k with
  | .ok _ =>
    match b.patch s k doc with
    | .ok s' => (s', [.readObj k, .patchObj k], none)
    | .error (.apiException _) =>
      match b.create s k doc with
      | .ok s' => (s', [.readObj k, .patchObj k, .createObj k], none)
      | .error e => (s, [.readObj k, .patchObj k, .createObj k], some e)
    | .error e => (s, [.readObj k, .patchObj k], some e)
  | .error (.apiException _) =>
    match b.create s k doc with
    | .ok s' => (s', [.readObj k, .createObj k], none)
    | .error e => (s, [.readObj k, .createObj k], some e)
  | .error e => (s, [.readObj k], some e)

/-- `k8s_client._apply_single`: dispatch on `doc.get("kind")` over the
five supported kinds, else `ValueError(f"Unsupported kind {kind}")`
with no API verb issued. -/
def _apply_single {σ : Type} (b : ApplyBackend σ) (doc : Doc) (s : σ) :
    σ × List ApiVerb × Option PyError :=
  let kind := doc.kind
  let name := doc.name
  let ns := doc.nspace
  if kind = some "Deployment" then
    tryReadPatchCreate b s ⟨"Deployment", name, ns⟩ doc
  else if kind = some "StatefulSet" then
    tryReadPatchCreate b s ⟨"StatefulSet", name, ns⟩ doc
  else if kind = some "Service" then
    tryReadPatchCreate b s ⟨"Service", name, ns⟩ doc
  else if kind = some "ConfigMap" then
    tryReadPatchCreate b s ⟨"ConfigMap", name, ns⟩ doc
  else if kind = some "Secret" then
    tryReadPatchCreate b s ⟨"Secret", name, ns⟩ doc
  else
    (s, [], some (.valueError ("Unsupported kind " ++ pyShowOptStr kind)))

/-- `doc.setdefault("metadata", {}).setdefault("namespace", namespace)`. -/
def setdefaultNamespace (doc : Doc) (ns : String) : Doc :=
  { doc with nspace := some (doc.nspace.getD ns) }

/-- `k8s_client.apply_yaml_manifest` over the already-parsed document
list (`yaml.safe_load_all`); a `none` entry is an empty document
(`if not doc: continue`).  Documents are applied sequentially; the first
propagating exception stops processing, keeping the state changes and
verbs of the documents already applied. -/
def apply_yaml_manifest {σ : Type} (b : ApplyBackend σ)
    (docs : List (Option Doc)) (ns : String) (s : σ) :
    σ × List ApiVerb × Option PyError :=
  match docs with
  | [] => (s, [], none)
  | none :: rest => apply_yaml_manifest b rest ns s
  | some d :: rest =>
    let r := _apply_single b (setdefaultNamespace d ns) s
    match r.2.2 with
    | some e => (r.1, r.2.1, some e)
    | none =>
      let r' := apply_yaml_manifest b rest ns r.1
      (r'.1, r.2.1 ++ r'.2.1, r'.2.2)

/-- A well-behaved remote cluster for the mutator: the association of
existing objects to their stored documents.  `read`/`patch` succeed
exactly on existing objects (404 `ApiException` otherwise); `create`
succeeds exactly on absent ones (409 `ApiException` otherwise).  This is
the reference semantics of the orchestration API assumed by the spec's
idempotence property. -/
def clusterState := List (ObjKey × Doc)

/-- Lookup in the well-behaved cluster. -/
def clusterFind (s : List (ObjKey × Doc)) (k : ObjKey) : Option Doc :=
  match s with
  | [] => none
  | kv :: rest => if kv.1 = k then some kv.2 else clusterFind rest k

/-- Store (replace or insert) in the well-behaved cluster. -/
def clusterSet (s : List (ObjKey × Doc)) (k : ObjKey) (d : Doc) :
    List (ObjKey × Doc) :=
  match s with
  | [] => [(k, d)]
  | kv :: rest => if kv.1 = k then (k, d) :: rest else kv :: clusterSet rest k d

/-- The well-behaved cluster backend. -/
def clusterBackend : ApplyBackend (List (ObjKey × Doc)) where
  read s k :=
    match clusterFind s k with
    | some _ => .ok ()
    | none => .error (.apiException "404 not found")
  patch s k d :=
    match clusterFind s k with
    | some _ => .ok (clusterSet s k d)
    | none => .error (.apiException "404 not found")
  create s k d :=
    match clusterFind s k with
    | some _ => .error (.apiException "409 already exists")
    | none => .ok (clusterSet s k d)

/-- Number of create verbs in a trace. -/
def countCreates (tr : List ApiVerb) : Nat :=
  tr.countP fun v => match v with | .createObj _ => true | _ => false

/-- Number of patch verbs in a trace. -/
def countPatches (tr : List ApiVerb) : Nat :=
  tr.countP fun v => match v with | .patchObj _ => true | _ => false

/-- A UTC instant as produced by `datetime.utcnow()`. -/
structure PyDatetime where
  year : Nat
  month : Nat
  day : Nat
  hour : Nat
  minute : Nat
  second : Nat
  microsecond : Nat
  deriving DecidableEq, Repr

/-- Zero-pad a number to `w` digits. -/
def padNum (w : Nat) (n : Nat) : String :=
  let s := toString n
  let k := w - s.length
  ⟨List.replicate k '0' ++ s.data⟩

/-- Python `datetime.isoformat()`: `YYYY-MM-DDTHH:MM:SS`, with a
`.ffffff` microseconds part appended exactly when `microsecond` is
non-zero. -/
def pyIsoformat (t : PyDatetime) : String :=
  padNum 4 t.year ++ "-" ++ padNum 2 t.month ++ "-" ++ padNum 2 t.day ++ "T" ++
    padNum 2 t.hour ++ ":" ++ padNum 2 t.minute ++ ":" ++ padNum 2 t.second ++
    (if t.microsecond = 0 then "" else "." ++ padNum 6 t.microsecond)

/-- A deployment as read by `read_namespaced_deployment`, flattened to
what `restart_deployment` touches: `spec.template.metadata.annotations`
(`none` models a `None` attribute) and `rest`, standing for every other
part of the object (image, replicas, selectors, ...), which the
operation must leave unchanged. -/
structure Deployment where
  annotations : Option (List (String × String))
  rest : String
  deriving DecidableEq, Repr

/-- Python dict assignment `d[k] = v` on an association list: overwrite
the existing entry or append. -/
def dictSet (d : List (String × String)) (k v : String) :
    List (String × String) :=
  match d with
  | [] => [(k, v)]
  | kv :: restEntries =>
    if kv.1 = k then (k, v) :: restEntries else kv :: dictSet restEntries k v

/-- Lookup in an association list (Python `d.get(k)`). -/
def dictGet (d : List (String × String)) (k : String) : Option String :=
  match d with
  | [] => none
  | kv :: restEntries => if kv.1 = k then some kv.2 else dictGet restEntries k

/-- Lines 240-242 of `k8s_client.py`: take
`spec.template.metadata.annotations or {}`, set the
`kubectl.kubernetes.io/restartedAt` key to `utcnow().isoformat() + "Z"`,
and write the dict back. -/
def restartMutate (now : PyDatetime) (dep : Deployment) : Deployment :=
  let annotations := dep.annotations.getD []
  let annotations :=
    dictSet annotations "kubectl.kubernetes.io/restartedAt" (pyIsoformat now ++ "Z")
  { dep with annotations := some annotations }

/-- The two remote endpoints `restart_deployment` uses, as outcome
oracles (the freshly-scoped handle is taken as constructed). -/
structure RestartApi where
  read_namespaced_deployment : String → String → Except PyError Deployment
  patch_namespaced_deployment : String → String → Deployment → Except PyError Unit

/-- `k8s_client.restart_deployment`: read (an `ApiException` becomes a
"Deployment fetch failed" string), annotate the template, patch (an
`ApiException` becomes a "Deployment restart failed" string, success a
"Deployment {name} restarted" string).  `.error` is a non-`ApiException`
exception propagating. -/
def restart_deployment (api : RestartApi) (now : PyDatetime)
    (name ns : String) : Except PyError String :=
  match api.read_namespaced_deployment name ns with
  | .error (.apiException e) => .ok ("Deployment fetch failed: " ++ e)
  | .error e => .error e
  | .ok deployment =>
    let deployment := restartMutate now deployment
    match api.patch_namespaced_deployment name ns deployment with
    | .ok _ => .ok ("Deployment " ++ name ++ " restarted")
    | .error (.apiException e) => .ok ("Deployment restart failed: " ++ e)
    | .error e => .error e

/-! ## Predicates, fixtures and helper lemmas -/

/-- The degraded session state: dummy mode with no API handle built
(the state `__init__` produces when the credential store is empty or
unreadable; `set_context` in dummy mode never builds handles). -/
def Degraded (m : Manager) : Prop :=
  m.dummy_mode = true ∧ m.api_client = none ∧ m.core = none ∧
  m.apps = none ∧ m.batch = none ∧ m.events = none

/-- A live (non-degraded) session whose five handles were all built from
the same client `hdl`. -/
def Live (m : Manager) (hdl : String) : Prop :=
  m.dummy_mode = false ∧ m.api_client = some hdl ∧ m.core = some hdl ∧
  m.apps = some hdl ∧ m.batch = some hdl ∧ m.events = some hdl

/-- The five supported manifest kinds. -/
def supportedKinds : List String :=
  ["Deployment", "StatefulSet", "Service", "ConfigMap", "Secret"]

/-- A remote cluster on which every endpoint fails with the same
`ApiException` — the error-injection fixture. -/
def failingApi (msg : String) : RemoteApi where
  list_namespace := .error (.apiException msg)
  list_namespaced_pod := fun _ _ => .error (.apiException msg)
  list_pod_for_all_namespaces := fun _ => .error (.apiException msg)
  list_namespaced_deployment := fun _ => .error (.apiException msg)
  list_deployment_for_all_namespaces := .error (.apiException msg)
  list_namespaced_stateful_set := fun _ => .error (.apiException msg)
  list_stateful_set_for_all_namespaces := .error (.apiException msg)
  list_namespaced_service := fun _ => .error (.apiException msg)
  list_service_for_all_namespaces := .error (.apiException msg)
  list_namespaced_job := fun _ => .error (.apiException msg)
  list_job_for_all_namespaces := .error (.apiException msg)
  list_namespaced_config_map := fun _ => .error (.apiException msg)
  list_config_map_for_all_namespaces := .error (.apiException msg)
  list_namespaced_secret := fun _ => .error (.apiException msg)
  list_secret_for_all_namespaces := .error (.apiException msg)
  list_namespaced_event := fun _ => .error (.apiException msg)
  list_event_for_all_namespaces := .error (.apiException msg)
  read_namespaced_pod_log := fun _ _ _ _ => .error (.apiException msg)
  read_node := fun _ => .error (.apiException msg)
  read_resource := fun _ _ _ => .error (.apiException msg)
  list_cluster_node_metrics := .error (.apiException msg)
  list_cluster_pod_metrics := .error (.apiException msg)
  list_namespaced_pod_metrics := fun _ => .error (.apiException msg)

/-- A healthy remote cluster fixture: every endpoint succeeds with a
small sample payload. -/
def sampleApi : RemoteApi where
  list_namespace := .ok ["default"]
  list_namespaced_pod := fun _ _ => .ok ["pod-1"]
  list_pod_for_all_namespaces := fun _ => .ok ["pod-1"]
  list_namespaced_deployment := fun _ => .ok ["dep-1"]
  list_deployment_for_all_namespaces := .ok ["dep-1"]
  list_namespaced_stateful_set := fun _ => .ok ["sts-1"]
  list_stateful_set_for_all_namespaces := .ok ["sts-1"]
  list_namespaced_service := fun _ => .ok ["svc-1"]
  list_service_for_all_namespaces := .ok ["svc-1"]
  list_namespaced_job := fun _ => .ok ["job-1"]
  list_job_for_all_namespaces := .ok ["job-1"]
  list_namespaced_config_map := fun _ => .ok ["cm-1"]
  list_config_map_for_all_namespaces := .ok ["cm-1"]
  list_namespaced_secret := fun _ => .ok ["sec-1"]
  list_secret_for_all_namespaces := .ok ["sec-1"]
  list_namespaced_event := fun _ => .ok ["ev-1"]
  list_event_for_all_namespaces := .ok ["ev-1"]
  read_namespaced_pod_log := fun _ _ _ _ => .ok "log line"
  read_node := fun _ => .ok ⟨some [⟨"Ready", "True"⟩]⟩
  read_resource := fun _ _ _ => .ok [("kind", "Deployment"), ("status", "Running")]
  list_cluster_node_metrics := .ok [⟨"n1", some "100m", some "256Mi"⟩]
  list_cluster_pod_metrics := .ok [⟨"p1", "default", [⟨some "100m", some "256Mi"⟩]⟩]
  list_namespaced_pod_metrics := fun _ => .ok [⟨"p1", "default", [⟨some "100m", some "256Mi"⟩]⟩]

/-- Context fixture "A". -/
def ctxA : KubeCtx := ⟨"A", some "alice", some "/home/a/.kube/config"⟩

/-- Context fixture "B". -/
def ctxB : KubeCtx := ⟨"B", some "bob", none⟩

/-- A live session fixture whose handles were built from context "A". -/
def mLive : Manager :=
  ⟨some "A", some "A", some "A", some "A", some "A", none,
   some "/home/a/.kube/config", [ctxA, ctxB], ctxA, false⟩

/-- A degraded session fixture (what `__init__` yields with no
kubeconfig). -/
def mDummy : Manager :=
  ⟨none, none, none, none, none, some "no kubeconfig",
   none, [⟨"No kubeconfig found", none, none⟩],
   ⟨"disconnected", some "n/a", none⟩, true⟩

/-- A credential store whose context listing succeeds but whose client
construction always throws (e.g. an unreachable credential plugin). -/
def storeThrow : ConfigStore :=
  ⟨.ok ([ctxA, ctxB], some ctxA), fun _ => .error (.otherError "no such context")⟩

/-- A working credential store: clients are scoped to the requested
context name. -/
def storeGood : ConfigStore :=
  ⟨.ok ([ctxA, ctxB], some ctxA), fun c => .ok c⟩

example : set_context storeGood mLive "B" =
    .ok { mLive with api_client := some "B", core := some "B", apps := some "B",
                     batch := some "B", events := some "B",
                     connection_warning := none } := by rfl

/-! ## Claim theorems -/

/-- Whether Python `int()` accepts the string — the claim's "plain
decimal integer literal" read as `int()`-acceptance, which (faithfully
to CPython) also admits underscore digit grouping, non-ASCII Unicode
decimal digits and surrounding whitespace. -/
def isPlainIntLiteral (s : String) : Bool :=
  match pyIntOfString s with
  | .ok _ => true
  | .error _ => false

/-- When `int()` raises on a string, the exception is
`ValueError` carrying that string. -/
theorem pyIntOfString_error_shape (s : String) (e : PyError)
    (h : pyIntOfString s = .error e) : e = .valueError s := by
  unfold pyIntOfString at h
  generalize ((s.data.dropWhile pyIsSpace).reverse.dropWhile
      pyIsSpace).reverse = cs at h
  cases cs with
  | nil => exact (Except.error.inj h).symm
  | cons c rest =>
    unfold pyIntCore at h
    repeat' split at h
    all_goals simp_all

/-- A string `int()` rejects makes `pyIntOfString` return exactly the
`ValueError` on that string. -/
theorem pyIntOfString_of_not_literal (s : String)
    (h : isPlainIntLiteral s = false) :
    pyIntOfString s = .error (.valueError s) := by
  unfold isPlainIntLiteral at h
  cases hh : pyIntOfString s with
  | ok v => rw [hh] at h; simp at h
  | error e =>
    have he := pyIntOfString_error_shape s e hh
    subst he
    rfl

/-- Claim C4, counterexample: the claim asserts
`parseQuantity("2000n") == 2`, but the code computes
`int(int("2000") / 1_000_000) = int(0.002) = 0`. -/
theorem claim_C4_counterexample :
    _parse_quantity "2000n" = .ok 0 ∧ _parse_quantity "2000n" ≠ .ok 2 := by
  refine ⟨by decide, fun h => ?_⟩
  rw [show _parse_quantity "2000n" = .ok 0 by decide] at h
  exact absurd (Except.ok.inj h) (by decide)

/-- Claim C4 (amended): per the stated suffix priority order,
`parseQuantity("500m") == 500`, `parseQuantity("2000n") == 0` (the
nano division by 1,000,000 truncates 0.002 to zero; the claim's value 2
is reached only by `"2000000n"`), `parseQuantity("1024Ki") == 1`,
`parseQuantity("256Mi") == 256`, `parseQuantity("3") == 3`. -/
theorem claim_C4_parse_quantity_values :
    _parse_quantity "500m" = .ok 500 ∧
    _parse_quantity "2000n" = .ok 0 ∧
    _parse_quantity "2000000n" = .ok 2 ∧
    _parse_quantity "1024Ki" = .ok 1 ∧
    _parse_quantity "256Mi" = .ok 256 ∧
    _parse_quantity "3" = .ok 3 := by
  refine ⟨?_, ?_, ?_, ?_, ?_, ?_⟩ <;> decide

/-- Claim C10: an input whose trailing characters match none of "n",
"m", "Ki", "Mi" and which `int()` does not accept as an integer string
(the claim's "plain decimal integer literal", where acceptance is
CPython's: underscore grouping, Unicode decimal digits and surrounding
whitespace included) makes `parseQuantity` raise a `ValueError` naming
the input, rather than returning any value or default. -/
theorem claim_C10_unknown_suffix_raises (s : String)
    (h1 : pyEndsWith s "n" = false) (h2 : pyEndsWith s "m" = false)
    (h3 : pyEndsWith s "Ki" = false) (h4 : pyEndsWith s "Mi" = false)
    (h5 : isPlainIntLiteral s = false) :
    _parse_quantity s = .error (.valueError s) := by
  unfold _parse_quantity
  simp [h1, h2, h3, h4, pyIntOfString_of_not_literal s h5]

/-- Claim C10, witness: the inputs "1Gi", "2k" and "1.5" satisfy the
hypotheses and raise; the boundary inputs `int()` does accept —
underscore-grouped "1_5", whitespace-wrapped " 42 " and the
Arabic-Indic digits of 42 — fall outside the hypotheses and return
values, matching CPython. -/
theorem claim_C10_witness :
    (pyEndsWith "1Gi" "n" = false ∧ pyEndsWith "1Gi" "m" = false ∧
     pyEndsWith "1Gi" "Ki" = false ∧ pyEndsWith "1Gi" "Mi" = false ∧
     isPlainIntLiteral "1Gi" = false ∧
     _parse_quantity "1Gi" = .error (.valueError "1Gi")) ∧
    _parse_quantity "2k" = .error (.valueError "2k") ∧
    _parse_quantity "1.5" = .error (.valueError "1.5") ∧
    (isPlainIntLiteral "1_5" = true ∧ _parse_quantity "1_5" = .ok 15) ∧
    (isPlainIntLiteral " 42 " = true ∧ _parse_quantity " 42 " = .ok 42) ∧
    (isPlainIntLiteral ⟨[Char.ofNat 0x664, Char.ofNat 0x662]⟩ = true ∧
     _parse_quantity ⟨[Char.ofNat 0x664, Char.ofNat 0x662]⟩ = .ok 42) :=
  ⟨⟨by decide, by decide, by decide, by decide, by decide,
    claim_C10_unknown_suffix_raises "1Gi" (by decide) (by decide) (by decide)
      (by decide) (by decide)⟩,
   claim_C10_unknown_suffix_raises "2k" (by decide) (by decide) (by decide)
     (by decide) (by decide),
   claim_C10_unknown_suffix_raises "1.5" (by decide) (by decide) (by decide)
     (by decide) (by decide),
   ⟨by decide, by decide⟩, ⟨by decide, by decide⟩, ⟨by decide, by decide⟩⟩

/-- Claim C2: on a degraded session every listing operation for every
resource kind returns an empty sequence, the degraded-mode reads return
their safe defaults (empty sequences for the metrics fetchers, the fixed
no-kubeconfig sentinel for logs, `None` for `get_node`, the manifest
sentinel for `get_resource_yaml`), the session state is untouched, and
no operation attempts a single remote call. -/
theorem claim_C2_degraded_all_ops_safe_no_remote_call
    (api : RemoteApi) (m : Manager) (h : Degraded m)
    (ns fs container : Option String) (pod nsp kind name node : String)
    (tail : Nat) :
    list_namespaces api m = ([], m, 0) ∧
    list_pods api m ns fs = ([], m, 0) ∧
    list_deployments api m ns = ([], m, 0) ∧
    list_statefulsets api m ns = ([], m, 0) ∧
    list_services api m ns = ([], m, 0) ∧
    list_jobs api m ns = ([], m, 0) ∧
    list_configmaps api m ns = ([], m, 0) ∧
    list_secrets api m ns = ([], m, 0) ∧
    list_events api m ns = ([], m, 0) ∧
    get_logs api m pod nsp container tail =
      (.ok "No kubeconfig loaded; cannot fetch logs.", m, 0) ∧
    get_node api m node = (none, m, 0) ∧
    get_resource_yaml api m kind name nsp =
      (.ok "No kubeconfig loaded; unable to load manifest.", m, 0) ∧
    fetch_node_metrics api m = (.ok [], m, 0) ∧
    fetch_pod_metrics api m ns = (.ok [], m, 0) := by
  obtain ⟨hd, hac, hc, hap, hb, he⟩ := h
  refine ⟨?_, ?_, ?_, ?_, ?_, ?_, ?_, ?_, ?_, ?_, ?_, ?_, ?_, ?_⟩ <;>
    simp [list_namespaces, list_pods, list_deployments, list_statefulsets,
      list_services, list_jobs, list_configmaps, list_secrets, list_events,
      get_logs, get_node, get_resource_yaml, fetch_node_metrics,
      fetch_pod_metrics, _safe_call, handleCall, hd, hac, hc, hap, hb, he]

/-- Claim C2, witness: the degraded fixture session against a healthy
remote cluster. -/
theorem claim_C2_witness :
    Degraded mDummy ∧
    list_namespaces sampleApi mDummy = ([], mDummy, 0) ∧
    get_logs sampleApi mDummy "p" "default" none 200 =
      (.ok "No kubeconfig loaded; cannot fetch logs.", mDummy, 0) ∧
    fetch_node_metrics sampleApi mDummy = (.ok [], mDummy, 0) := by
  have hd : Degraded mDummy := ⟨rfl, rfl, rfl, rfl, rfl, rfl⟩
  have h := claim_C2_degraded_all_ops_safe_no_remote_call sampleApi mDummy hd
    none none none "p" "default" "Deployment" "web" "n1" 200
  exact ⟨hd, h.1, h.2.2.2.2.2.2.2.2.2.1, h.2.2.2.2.2.2.2.2.2.2.2.2.1⟩

/-- Claim C3, counterexample: `set_context` on a non-degraded session
has no exception handler, so a throwing credential-store lookup
propagates to the caller instead of marking the session degraded with
the error text as warning. -/
theorem claim_C3_counterexample :
    set_context storeThrow mLive "B" = .error (.otherError "no such context") ∧
    ∀ m' : Manager, set_context storeThrow mLive "B" ≠ .ok m' := by
  refine ⟨rfl, fun m' h => ?_⟩
  rw [show set_context storeThrow mLive "B" =
      .error (.otherError "no such context") from rfl] at h
  exact Except.noConfusion h

/-- Claim C3 (amended): a throwing credential-store lookup inside
`set_context` on a non-degraded session propagates the exception to the
caller (the session object is unchanged, since the throw happens before
any assignment); the soft-fail behaviour the claim describes lives in
construction instead: a throwing context listing yields a degraded
session whose warning is the error text, with no error propagated. -/
theorem claim_C3_amended_set_context_propagates
    (store : ConfigStore) (m : Manager) (name : String) (e : PyError)
    (hdm : m.dummy_mode = false)
    (hthrow : store.new_client_from_config name = .error e) :
    set_context store m name = .error e ∧
    ∀ (store' : ConfigStore) (env : Option String) (errc : PyError),
      store'.list_kube_config_contexts = .error errc →
      ∃ m' : Manager, initManager store' env = .ok m' ∧
        m'.dummy_mode = true ∧ m'.connection_warning = some errc.str := by
  constructor
  · simp [set_context, hdm, hthrow]
  · intro store' env errc hlist
    have hinit : initManager store' env = .ok
        { api_client := none, core := none, apps := none, batch := none,
          events := none, connection_warning := some errc.str,
          kubeconfig_path := env,
          available_contexts := [⟨"No kubeconfig found", none, none⟩],
          active_context := ⟨"disconnected", some "n/a", none⟩,
          dummy_mode := true } := by
      simp [initManager, hlist]
    exact ⟨_, hinit, rfl, rfl⟩

/-- Claim C3, witness: the throwing store fixture. -/
theorem claim_C3_witness :
    mLive.dummy_mode = false ∧
    storeThrow.new_client_from_config "B" = .error (.otherError "no such context") ∧
    set_context storeThrow mLive "B" = .error (.otherError "no such context") := by
  have h := claim_C3_amended_set_context_propagates storeThrow mLive "B"
    (.otherError "no such context") rfl rfl
  exact ⟨rfl, rfl, h.1⟩

/-- Claim C5, code evaluation at the failing input: on the live session
whose recorded active context is "A", a successful `set_context "B"`
rebuilds all five handles from context "B" but leaves the recorded
active context at "A" (only the dummy branch reassigns
`active_context`), so API handles and recorded active context disagree
and the session's active context does not equal the named context. -/
theorem claim_C5_stale_active_context :
    ∃ m' : Manager, set_context storeGood mLive "B" = .ok m' ∧
      m'.api_client = some "B" ∧ m'.core = some "B" ∧ m'.apps = some "B" ∧
      m'.batch = some "B" ∧ m'.events = some "B" ∧
      m'.active_context.name = "A" ∧ m'.active_context.name ≠ "B" := by
  refine ⟨_, rfl, rfl, rfl, rfl, rfl, rfl, rfl, ?_⟩
  intro h
  exact absurd h (by decide)

/-- Claim C6, counterexample: on a live session with no prior warning,
`get_logs` converts a remote `ApiException` to the "Unable to fetch
logs" message but does NOT record it as the session's last warning
(unlike the `_safe_call`-wrapped operations), and `get_resource_yaml`
propagates the remote `ApiException` to the caller, so the claim's
"recorded as the session's last warning" and "callers never see a
propagated remote exception" both fail. -/
theorem claim_C6_counterexample :
    (get_logs (failingApi "boom") mLive "p" "default" none 200).1 =
      .ok "Unable to fetch logs: boom" ∧
    (get_logs (failingApi "boom") mLive "p" "default" none 200).2.1.connection_warning
      = none ∧
    (get_logs (failingApi "boom") mLive "p" "default" none 200).2.1.connection_warning
      ≠ some "boom" ∧
    (get_resource_yaml (failingApi "boom") mLive "Deployment" "web" "default").1 =
      .error (.apiException "boom") := by
  refine ⟨rfl, rfl, ?_, rfl⟩
  intro h
  rw [show (get_logs (failingApi "boom") mLive "p" "default" none 200).2.1.connection_warning
      = none from rfl] at h
  exact Option.noConfusion h

/-- Claim C6 (amended): on a non-degraded session, a remote
`ApiException` in any listing or in `get_node` is caught, recorded as
the session's last warning, and converted to the safe default (empty
sequence, resp. `None`), with exactly one remote call attempted;
`get_logs` catches it and returns the fixed "Unable to fetch logs"
message without recording a warning; `get_resource_yaml` alone
propagates it.  No listing, `get_node` or `get_logs` call lets a remote
exception escape. -/
theorem claim_C6_amended_read_errors_safe
    (m : Manager) (hdl msg : String) (hLive : Live m hdl)
    (ns fs container : Option String) (pod nsp node dname : String)
    (tail : Nat) :
    list_namespaces (failingApi msg) m =
      ([], { m with connection_warning := some msg }, 1) ∧
    list_pods (failingApi msg) m ns fs =
      ([], { m with connection_warning := some msg }, 1) ∧
    list_deployments (failingApi msg) m ns =
      ([], { m with connection_warning := some msg }, 1) ∧
    list_statefulsets (failingApi msg) m ns =
      ([], { m with connection_warning := some msg }, 1) ∧
    list_services (failingApi msg) m ns =
      ([], { m with connection_warning := some msg }, 1) ∧
    list_jobs (failingApi msg) m ns =
      ([], { m with connection_warning := some msg }, 1) ∧
    list_configmaps (failingApi msg) m ns =
      ([], { m with connection_warning := some msg }, 1) ∧
    list_secrets (failingApi msg) m ns =
      ([], { m with connection_warning := some msg }, 1) ∧
    list_events (failingApi msg) m ns =
      ([], { m with connection_warning := some msg }, 1) ∧
    get_node (failingApi msg) m node =
      (none, { m with connection_warning := some msg }, 1) ∧
    get_logs (failingApi msg) m pod nsp container tail =
      (.ok ("Unable to fetch logs: " ++ msg), m, 1) ∧
    get_resource_yaml (failingApi msg) m "Deployment" dname nsp =
      (.error (.apiException msg), m, 1) := by
  obtain ⟨hd, hac, hc, hap, hb, he⟩ := hLive
  refine ⟨?_, ?_, ?_, ?_, ?_, ?_, ?_, ?_, ?_, ?_, ?_, ?_⟩ <;>
    cases ns <;>
      simp [list_namespaces, list_pods, list_deployments, list_statefulsets,
        list_services, list_jobs, list_configmaps, list_secrets, list_events,
        get_logs, get_node, get_resource_yaml, _safe_call, handleCall,
        CallRes.mapRes, Except.map, failingApi, hd, hac, hc, hap, hb, he]

/-- Claim C6, witness: the live fixture session against the uniformly
failing remote cluster. -/
theorem claim_C6_witness :
    Live mLive "A" ∧
    list_namespaces (failingApi "boom") mLive =
      ([], { mLive with connection_warning := some "boom" }, 1) ∧
    get_node (failingApi "boom") mLive "n1" =
      (none, { mLive with connection_warning := some "boom" }, 1) := by
  have hl : Live mLive "A" := ⟨rfl, rfl, rfl, rfl, rfl, rfl⟩
  have h := claim_C6_amended_read_errors_safe mLive "A" "boom" hl
    none none none "p" "default" "n1" "web" 200
  exact ⟨hl, h.1, h.2.2.2.2.2.2.2.2.2.1⟩

/-- Every trace of the shared try/read/patch/create shape begins with the
read of the addressed object. -/
theorem tryReadPatchCreate_head {σ : Type} (b : ApplyBackend σ) (s : σ)
    (k : ObjKey) (doc : Doc) :
    (tryReadPatchCreate b s k doc).2.1.head? = some (.readObj k) := by
  cases hr : b.read s k with
  | ok u =>
    cases hp : b.patch s k doc with
    | ok s' => simp [tryReadPatchCreate, hr, hp]
    | error e =>
      rcases e with msg | msg | - | - | msg
      · cases hc : b.create s k doc <;> simp [tryReadPatchCreate, hr, hp, hc]
      · simp [tryReadPatchCreate, hr, hp]
      · simp [tryReadPatchCreate, hr, hp]
      · simp [tryReadPatchCreate, hr, hp]
      · simp [tryReadPatchCreate, hr, hp]
  | error e =>
    rcases e with msg | msg | - | - | msg
    · cases hc : b.create s k doc <;> simp [tryReadPatchCreate, hr, hc]
    · simp [tryReadPatchCreate, hr]
    · simp [tryReadPatchCreate, hr]
    · simp [tryReadPatchCreate, hr]
    · simp [tryReadPatchCreate, hr]

/-- Successful read followed by successful patch: exactly read-then-patch
is issued. -/
theorem tryReadPatchCreate_read_ok_patch_ok {σ : Type} (b : ApplyBackend σ)
    (s : σ) (k : ObjKey) (doc : Doc) (s' : σ)
    (hr : b.read s k = .ok ()) (hp : b.patch s k doc = .ok s') :
    tryReadPatchCreate b s k doc = (s', [.readObj k, .patchObj k], none) := by
  simp [tryReadPatchCreate, hr, hp]

/-- Read raising `ApiException` followed by successful create: exactly
read-then-create is issued. -/
theorem tryReadPatchCreate_read_apiErr_create_ok {σ : Type}
    (b : ApplyBackend σ) (s : σ) (k : ObjKey) (doc : Doc) (e : String) (s' : σ)
    (hr : b.read s k = .error (.apiException e)) (hc : b.create s k doc = .ok s') :
    tryReadPatchCreate b s k doc = (s', [.readObj k, .createObj k], none) := by
  simp [tryReadPatchCreate, hr, hc]

/-- Dispatch on a supported kind reduces `_apply_single` to the shared
try/read/patch/create shape at the corresponding object key. -/
theorem _apply_single_eq_try {σ : Type} (b : ApplyBackend σ) (s : σ)
    (doc : Doc) (K : String) (hK : K ∈ supportedKinds)
    (hkind : doc.kind = some K) :
    _apply_single b doc s = tryReadPatchCreate b s ⟨K, doc.name, doc.nspace⟩ doc := by
  simp only [supportedKinds, List.mem_cons, List.not_mem_nil, or_false] at hK
  rcases hK with rfl | rfl | rfl | rfl | rfl <;> simp [_apply_single, hkind]

/-- Storing then looking up the same key in the well-behaved cluster. -/
theorem clusterFind_clusterSet_self (s : List (ObjKey × Doc)) (k : ObjKey)
    (d : Doc) : clusterFind (clusterSet s k d) k = some d := by
  induction s with
  | nil => simp [clusterSet, clusterFind]
  | cons kv rest ih =>
    by_cases h : kv.1 = k
    · simp [clusterSet, clusterFind, h]
    · simp [clusterSet, clusterFind, h, ih]

/-- Claim C1: for every supported kind, applying a single document first
attempts a read of the named object; a successful read is followed by a
patch of the existing object, and a read raising any `ApiException` is
followed by a create.  Consequently, on a well-behaved cluster, applying
the same document twice starting from an absent object issues exactly
one create (first apply) and then one patch (second apply), never a
second create. -/
theorem claim_C1_read_then_branch_and_idempotent
    {σ : Type} (b : ApplyBackend σ) (s : σ) (doc : Doc) (K : String)
    (hK : K ∈ supportedKinds) (hkind : doc.kind = some K) :
    ((_apply_single b doc s).2.1.head? =
       some (.readObj ⟨K, doc.name, doc.nspace⟩)) ∧
    (∀ s', b.read s ⟨K, doc.name, doc.nspace⟩ = .ok () →
       b.patch s ⟨K, doc.name, doc.nspace⟩ doc = .ok s' →
       _apply_single b doc s =
         (s', [.readObj ⟨K, doc.name, doc.nspace⟩,
               .patchObj ⟨K, doc.name, doc.nspace⟩], none)) ∧
    (∀ e s', b.read s ⟨K, doc.name, doc.nspace⟩ = .error (.apiException e) →
       b.create s ⟨K, doc.name, doc.nspace⟩ doc = .ok s' →
       _apply_single b doc s =
         (s', [.readObj ⟨K, doc.name, doc.nspace⟩,
               .createObj ⟨K, doc.name, doc.nspace⟩], none)) ∧
    (∀ cs : List (ObjKey × Doc),
       clusterFind cs ⟨K, doc.name, doc.nspace⟩ = none →
       (_apply_single clusterBackend doc cs).2.1 =
         [.readObj ⟨K, doc.name, doc.nspace⟩,
          .createObj ⟨K, doc.name, doc.nspace⟩] ∧
       (_apply_single clusterBackend doc
           ((_apply_single clusterBackend doc cs).1)).2.1 =
         [.readObj ⟨K, doc.name, doc.nspace⟩,
          .patchObj ⟨K, doc.name, doc.nspace⟩] ∧
       countCreates ((_apply_single clusterBackend doc cs).2.1 ++
           (_apply_single clusterBackend doc
             ((_apply_single clusterBackend doc cs).1)).2.1) = 1 ∧
       countPatches ((_apply_single clusterBackend doc cs).2.1 ++
           (_apply_single clusterBackend doc
             ((_apply_single clusterBackend doc cs).1)).2.1) = 1 ∧
       countCreates ((_apply_single clusterBackend doc
           ((_apply_single clusterBackend doc cs).1)).2.1) = 0) := by
  refine ⟨?_, ?_, ?_, ?_⟩
  · rw [_apply_single_eq_try b s doc K hK hkind]
    exact tryReadPatchCreate_head b s _ doc
  · intro s' hr hp
    rw [_apply_single_eq_try b s doc K hK hkind]
    exact tryReadPatchCreate_read_ok_patch_ok b s _ doc s' hr hp
  · intro e s' hr hc
    rw [_apply_single_eq_try b s doc K hK hkind]
    exact tryReadPatchCreate_read_apiErr_create_ok b s _ doc e s' hr hc
  · intro cs hfind
    have h1 : _apply_single clusterBackend doc cs =
        (clusterSet cs ⟨K, doc.name, doc.nspace⟩ doc,
         [.readObj ⟨K, doc.name, doc.nspace⟩,
          .createObj ⟨K, doc.name, doc.nspace⟩], none) := by
      rw [_apply_single_eq_try clusterBackend cs doc K hK hkind]
      exact tryReadPatchCreate_read_apiErr_create_ok _ _ _ _ "404 not found" _
        (by simp [clusterBackend, hfind]) (by simp [clusterBackend, hfind])
    have h2 : _apply_single clusterBackend doc
        (clusterSet cs ⟨K, doc.name, doc.nspace⟩ doc) =
        (clusterSet (clusterSet cs ⟨K, doc.name, doc.nspace⟩ doc)
           ⟨K, doc.name, doc.nspace⟩ doc,
         [.readObj ⟨K, doc.name, doc.nspace⟩,
          .patchObj ⟨K, doc.name, doc.nspace⟩], none) := by
      rw [_apply_single_eq_try clusterBackend _ doc K hK hkind]
      apply tryReadPatchCreate_read_ok_patch_ok
      · simp [clusterBackend, clusterFind_clusterSet_self]
      · simp [clusterBackend, clusterFind_clusterSet_self]
    refine ⟨?_, ?_, ?_, ?_, ?_⟩ <;>
      simp [h1, h2, countCreates, countPatches, List.countP_cons, List.countP_nil]

/-- Document fixture: a Deployment manifest. -/
def docW : Doc := ⟨some "Deployment", some "web", some "default", "image: nginx"⟩

/-- Object key of `docW`. -/
def keyW : ObjKey := ⟨"Deployment", some "web", some "default"⟩

/-- Claim C1, witness: applying `docW` twice to an initially empty
well-behaved cluster creates on the first apply and patches on the
second. -/
theorem claim_C1_witness :
    ("Deployment" ∈ supportedKinds ∧ docW.kind = some "Deployment" ∧
     clusterFind [] keyW = none) ∧
    (_apply_single clusterBackend docW ([] : List (ObjKey × Doc))).2.1 =
      [.readObj keyW, .createObj keyW] ∧
    (_apply_single clusterBackend docW
       ((_apply_single clusterBackend docW ([] : List (ObjKey × Doc))).1)).2.1 =
      [.readObj keyW, .patchObj keyW] := by
  have h := (claim_C1_read_then_branch_and_idempotent clusterBackend
    ([] : List (ObjKey × Doc)) docW "Deployment"
    (by simp [supportedKinds]) rfl).2.2.2 [] rfl
  exact ⟨⟨by simp [supportedKinds], rfl, rfl⟩, h.1, h.2.1⟩

/-- An unsupported kind makes `_apply_single` raise the configuration
`ValueError` naming the kind, with no API verb issued and the state
unchanged. -/
theorem _apply_single_unsupported {σ : Type} (b : ApplyBackend σ)
    (doc : Doc) (s : σ) (hkind : ∀ K ∈ supportedKinds, doc.kind ≠ some K) :
    _apply_single b doc s =
      (s, [], some (.valueError ("Unsupported kind " ++ pyShowOptStr doc.kind))) := by
  have h1 := hkind "Deployment" (by simp [supportedKinds])
  have h2 := hkind "StatefulSet" (by simp [supportedKinds])
  have h3 := hkind "Service" (by simp [supportedKinds])
  have h4 := hkind "ConfigMap" (by simp [supportedKinds])
  have h5 := hkind "Secret" (by simp [supportedKinds])
  simp [_apply_single, h1, h2, h3, h4, h5]

/-- Filling in the default namespace touches only `metadata.namespace`. -/
theorem setdefaultNamespace_kind (d : Doc) (ns : String) :
    (setdefaultNamespace d ns).kind = d.kind := rfl

/-- Claim C7: documents are applied independently and sequentially with
partial success and no rollback; a document with an unsupported kind
fails fast with a `ValueError` naming the kind, before any API call is
made for that document (the state changes and API verbs of the earlier
documents are kept, and no verb of the failing or any later document is
issued). -/
theorem claim_C7_unsupported_kind_fail_fast
    {σ : Type} (b : ApplyBackend σ) (s : σ) (ds₁ ds₂ : List (Option Doc))
    (d : Doc) (ns : String)
    (hpre : (apply_yaml_manifest b ds₁ ns s).2.2 = none)
    (hkind : ∀ K ∈ supportedKinds, d.kind ≠ some K) :
    (∀ s' : σ, _apply_single b (setdefaultNamespace d ns) s' =
       (s', [], some (.valueError ("Unsupported kind " ++ pyShowOptStr d.kind)))) ∧
    apply_yaml_manifest b (ds₁ ++ some d :: ds₂) ns s =
      ((apply_yaml_manifest b ds₁ ns s).1,
       (apply_yaml_manifest b ds₁ ns s).2.1,
       some (.valueError ("Unsupported kind " ++ pyShowOptStr d.kind))) := by
  have hkind' : ∀ K ∈ supportedKinds, (setdefaultNamespace d ns).kind ≠ some K := by
    simpa [setdefaultNamespace_kind] using hkind
  have hsingle : ∀ s' : σ, _apply_single b (setdefaultNamespace d ns) s' =
      (s', [], some (.valueError ("Unsupported kind " ++ pyShowOptStr d.kind))) := by
    intro s'
    have h := _apply_single_unsupported b (setdefaultNamespace d ns) s' hkind'
    simpa [setdefaultNamespace_kind] using h
  refine ⟨hsingle, ?_⟩
  induction ds₁ generalizing s with
  | nil =>
    simp [apply_yaml_manifest, hsingle s]
  | cons d₀ rest ih =>
    cases d₀ with
    | none =>
      simpa [apply_yaml_manifest] using ih s hpre
    | some dd =>
      have hih := ih ((_apply_single b (setdefaultNamespace dd ns) s).1)
      cases h0 : (_apply_single b (setdefaultNamespace dd ns) s).2.2 with
      | some e =>
        exfalso
        rw [show apply_yaml_manifest b (some dd :: rest) ns s =
            ((_apply_single b (setdefaultNamespace dd ns) s).1,
             (_apply_single b (setdefaultNamespace dd ns) s).2.1, some e) by
          simp [apply_yaml_manifest, h0]] at hpre
        exact Option.noConfusion hpre
      | none =>
        have hpre' : (apply_yaml_manifest b rest ns
            ((_apply_single b (setdefaultNamespace dd ns) s).1)).2.2 = none := by
          rw [show apply_yaml_manifest b (some dd :: rest) ns s =
              ((apply_yaml_manifest b rest ns
                 ((_apply_single b (setdefaultNamespace dd ns) s).1)).1,
               (_apply_single b (setdefaultNamespace dd ns) s).2.1 ++
                 (apply_yaml_manifest b rest ns
                   ((_apply_single b (setdefaultNamespace dd ns) s).1)).2.1,
               (apply_yaml_manifest b rest ns
                 ((_apply_single b (setdefaultNamespace dd ns) s).1)).2.2) by
            simp [apply_yaml_manifest, h0]] at hpre
          exact hpre
        have := hih hpre'
        simp [apply_yaml_manifest, h0, this, hpre']

/-- Two further document fixtures for the C7 witness. -/
def svcDoc : Doc := ⟨some "Service", some "websvc", none, "ports: [80]"⟩

/-- A CronJob document, outside the supported kinds. -/
def cronDoc : Doc := ⟨some "CronJob", some "nightly", none, "schedule: daily"⟩

/-- Claim C7, witness: a submission [Deployment, CronJob, Service]
against an empty well-behaved cluster applies the Deployment, stops at
the CronJob with the configuration error, and never touches the
Service. -/
theorem claim_C7_witness :
    (apply_yaml_manifest clusterBackend [some docW] "default"
       ([] : List (ObjKey × Doc))).2.2 = none ∧
    (∀ K ∈ supportedKinds, cronDoc.kind ≠ some K) ∧
    apply_yaml_manifest clusterBackend
        [some docW, some cronDoc, some svcDoc] "default"
        ([] : List (ObjKey × Doc)) =
      ((apply_yaml_manifest clusterBackend [some docW] "default"
          ([] : List (ObjKey × Doc))).1,
       (apply_yaml_manifest clusterBackend [some docW] "default"
          ([] : List (ObjKey × Doc))).2.1,
       some (.valueError "Unsupported kind CronJob")) := by
  have hpre : (apply_yaml_manifest clusterBackend [some docW] "default"
      ([] : List (ObjKey × Doc))).2.2 = none := by decide
  have hkind : ∀ K ∈ supportedKinds, cronDoc.kind ≠ some K := by decide
  have h := (claim_C7_unsupported_kind_fail_fast clusterBackend
    ([] : List (ObjKey × Doc)) [some docW] [some svcDoc] cronDoc "default"
    hpre hkind).2
  exact ⟨hpre, hkind, h⟩

/-- Setting then getting the same key in a Python dict model. -/
theorem dictGet_dictSet_self (d : List (String × String)) (k v : String) :
    dictGet (dictSet d k v) k = some v := by
  induction d with
  | nil => simp [dictSet, dictGet]
  | cons kv rest ih =>
    by_cases h : kv.1 = k
    · simp [dictSet, dictGet, h]
    · simp [dictSet, dictGet, h, ih]

/-- Setting one key leaves every other key's value unchanged. -/
theorem dictGet_dictSet_ne (d : List (String × String)) (k v k' : String)
    (h : k' ≠ k) : dictGet (dictSet d k v) k' = dictGet d k' := by
  have h' : ¬(k = k') := fun hc => h hc.symm
  induction d with
  | nil => simp [dictSet, dictGet, h']
  | cons kv rest ih =>
    by_cases hh : kv.1 = k
    · subst hh
      simp [dictSet, dictGet, h']
    · simp only [dictSet, hh, if_false]
      by_cases hk' : kv.1 = k'
      · simp [dictGet, hk']
      · simp [dictGet, hk', ih]

/-- The restart timestamp fixture: 2026-10-12 01:02:03.500000 UTC. -/
def nowMicro : PyDatetime := ⟨2026, 10, 12, 1, 2, 3, 500000⟩

/-- A deployment fixture with no template annotations. -/
def depW : Deployment := ⟨none, "image: nginx; replicas: 3"⟩

/-- A restart API over a cluster containing the deployment: read
succeeds, patch succeeds. -/
def restartApiW : RestartApi := ⟨fun _ _ => .ok depW, fun _ _ _ => .ok ()⟩

/-- A restart API for a non-existent deployment: the read raises 404. -/
def restartApiFail : RestartApi :=
  ⟨fun _ _ => .error (.apiException "404 not found"), fun _ _ _ => .ok ()⟩

/-- Claim C8, counterexample: the annotation the code writes is NOT at
second precision — `datetime.isoformat()` appends the microsecond field
whenever it is non-zero, so at 01:02:03.500000 the annotation is
"2026-10-12T01:02:03.500000Z", which differs from the second-precision
rendering "2026-10-12T01:02:03Z" and contains a fractional part. -/
theorem claim_C8_counterexample :
    restart_deployment restartApiW nowMicro "web" "default" =
      .ok "Deployment web restarted" ∧
    dictGet ((restartMutate nowMicro depW).annotations.getD [])
        "kubectl.kubernetes.io/restartedAt" =
      some "2026-10-12T01:02:03.500000Z" ∧
    "2026-10-12T01:02:03.500000Z" ≠ "2026-10-12T01:02:03Z" ∧
    ("2026-10-12T01:02:03.500000Z".data.contains '.') = true := by
  refine ⟨by decide, by decide, ?_, by decide⟩
  intro h
  exact absurd h (by decide)

/-- Claim C8 (amended): `restart_deployment` never throws on remote API
failures: a read `ApiException` yields the "Deployment fetch failed"
string; on read success the restart annotation on the pod-template
metadata is set/overwritten to the ISO-8601 rendering of the current UTC
instant with trailing "Z" (microsecond precision when the microsecond
component is non-zero), every other annotation and the whole remaining
spec are unchanged, and the mutated deployment is patched: a successful
patch yields "Deployment {name} restarted", a patch `ApiException` the
"Deployment restart failed" string. -/
theorem claim_C8_amended_restart_behaviour
    (api : RestartApi) (now : PyDatetime) (name ns : String) :
    (∀ e, api.read_namespaced_deployment name ns = .error (.apiException e) →
       restart_deployment api now name ns =
         .ok ("Deployment fetch failed: " ++ e)) ∧
    (∀ dep, api.read_namespaced_deployment name ns = .ok dep →
       dictGet ((restartMutate now dep).annotations.getD [])
           "kubectl.kubernetes.io/restartedAt" = some (pyIsoformat now ++ "Z") ∧
       (restartMutate now dep).rest = dep.rest ∧
       (∀ k, k ≠ "kubectl.kubernetes.io/restartedAt" →
          dictGet ((restartMutate now dep).annotations.getD []) k =
            dictGet (dep.annotations.getD []) k) ∧
       (api.patch_namespaced_deployment name ns (restartMutate now dep) = .ok () →
          restart_deployment api now name ns =
            .ok ("Deployment " ++ name ++ " restarted")) ∧
       (∀ e, api.patch_namespaced_deployment name ns (restartMutate now dep) =
            .error (.apiException e) →
          restart_deployment api now name ns =
            .ok ("Deployment restart failed: " ++ e))) := by
  constructor
  · intro e hr
    simp [restart_deployment, hr]
  · intro dep hr
    refine ⟨?_, rfl, ?_, ?_, ?_⟩
    · simp [restartMutate, dictGet_dictSet_self]
    · intro k hk
      simp [restartMutate, dictGet_dictSet_ne _ _ _ _ hk]
    · intro hp
      simp [restart_deployment, hr, hp]
    · intro e hp
      simp [restart_deployment, hr, hp]

/-- Claim C8, witness: a missing deployment yields the fetch-failure
string; an existing one is annotated and restarted. -/
theorem claim_C8_witness :
    restart_deployment restartApiFail nowMicro "web" "default" =
      .ok "Deployment fetch failed: 404 not found" ∧
    restart_deployment restartApiW nowMicro "web" "default" =
      .ok "Deployment web restarted" ∧
    dictGet ((restartMutate nowMicro depW).annotations.getD [])
        "kubectl.kubernetes.io/restartedAt" =
      some (pyIsoformat nowMicro ++ "Z") := by
  have h1 := (claim_C8_amended_restart_behaviour restartApiFail nowMicro
    "web" "default").1 "404 not found" rfl
  have h2 := (claim_C8_amended_restart_behaviour restartApiW nowMicro
    "web" "default").2 depW rfl
  exact ⟨h1, h2.2.2.2.1 rfl, h2.1⟩

/-- A healthy cluster except that reading the node object fails with a
remote API error. -/
def apiNodeReadFail : RemoteApi :=
  { sampleApi with read_node := fun _ => .error (.apiException "500 backend error") }

/-- Claim C9, code evaluation at the failing input: when reading the
node fails with an `ApiException`, `get_node` swallows it (warning
recorded, `None` returned), whereupon `_get_condition` evaluates
`node.status` on `None` and raises `AttributeError` — which its
`except ApiException` does not catch — instead of returning "Unknown";
the `AttributeError` then propagates out of `fetch_node_metrics`, whose
handler also catches only `ApiException`. -/
theorem claim_C9_condition_read_error_throws :
    (get_node apiNodeReadFail mLive "n1").1 = none ∧
    (get_node apiNodeReadFail mLive "n1").2.1.connection_warning =
      some "500 backend error" ∧
    (_get_condition apiNodeReadFail mLive "n1" "Ready").1 =
      .error .attributeError ∧
    (_get_condition apiNodeReadFail mLive "n1" "Ready").1 ≠ .ok "Unknown" ∧
    (fetch_node_metrics apiNodeReadFail mLive).1 = .error .attributeError := by
  refine ⟨by decide, by decide, by decide, ?_, by decide⟩
  intro h
  rw [show (_get_condition apiNodeReadFail mLive "n1" "Ready").1 =
      .error .attributeError by decide] at h
  exact Except.noConfusion h
